import Mathlib

/-!
Verification of the `GroundingWithBingSearch` client
(`src/grounding/bing/bing_search.py`).

The client is sequential HTTP orchestration: create an agent and a thread,
post a message, start a run, poll the run status in a fixed-delay loop,
fetch the resulting messages, and delete the agent/thread.  We embed it
shallowly: each HTTP interaction is recorded as an `Event` in a trace, and
the responses the remote service would return are supplied up front in an
environment structure, so every method becomes a pure function from
(environment, client state) to (events, outcome).  Exceptions raised by the
Python code are modelled with `Except`.
-/

namespace BingSearch

/-- One poll response of `GET /threads/{tid}/runs/{rid}`: the `status`
string and the `incomplete_details` payload (kept opaque as a string). -/
structure StatusResp where
  status : String
  incomplete_details : String
deriving Repr, DecidableEq

/-- The HTTP interactions the client performs, in the order it performs
them.  `sleep` records the `asyncio.sleep(1)` suspension between polls. -/
inductive Event where
  | createAgent (connection_id : String)
  | createThread
  | askThread (thread_id : String) (message : String)
  | runs (thread_id : String) (assistant_id : String)
  | statusRun (thread_id : String) (run_id : String)
  | sleep (seconds : Nat)
  | getResponse (thread_id : String)
  | deleteAgent (agent_id : String)
  | deleteThread (thread_id : String)
  | listThreads
  | listAgents
deriving Repr, DecidableEq

/-- The mutable fields of a `GroundingWithBingSearch` instance.
`headers` is kept opaque: the code builds it once in `__init__` and never
rewrites it. -/
structure ClientState where
  endpoint : String
  api_version : String
  connection_id : String
  headers : String
  agent_id : Option String
  thread_id : Option String
deriving Repr, DecidableEq

/-- Number of events of a trace satisfying a predicate. -/
def countEvent (p : Event → Bool) (evs : List Event) : Nat :=
  (evs.filter p).length

def isStatusRun : Event → Bool
  | Event.statusRun _ _ => true
  | _ => false

def isGetResponse : Event → Bool
  | Event.getResponse _ => true
  | _ => false

def isDeleteEvent : Event → Bool
  | Event.deleteAgent _ => true
  | Event.deleteThread _ => true
  | _ => false

def isDeleteThreadEvent : Event → Bool
  | Event.deleteThread _ => true
  | _ => false

/-! ## Resource acquisition: `init_agent_threads`

The Python code issues `_create_agent()` and `_create_thread()` through
one `asyncio.gather` (both requests are issued; `gather` only re-raises
after fan-out), then assigns `self.agent_id` / `self.thread_id` from the
two responses.  If either call fails, the exception propagates before any
assignment, and no compensating deletion is attempted. -/

/-- Outcomes of the two creation calls as the service would answer them:
`Except.ok id` for a successful creation, `Except.error e` for a raised
exception (transport failure or a response without an `"id"` field). -/
structure AcquireEnv where
  createAgentResult : Except String String
  createThreadResult : Except String String
deriving Repr

/-- `GroundingWithBingSearch.init_agent_threads`.  Both creation requests
are always issued (recorded in the trace); on success both ids are stored;
on any failure the exception propagates with the state unchanged, and no
deletion of a sibling resource that did get created is attempted. -/
def init_agent_threads (env : AcquireEnv) (st : ClientState) :
    List Event × Except String ClientState :=
  let evs := [Event.createAgent st.connection_id, Event.createThread]
  match env.createAgentResult, env.createThreadResult with
  | Except.ok aid, Except.ok tid =>
      (evs, Except.ok { st with agent_id := some aid, thread_id := some tid })
  | Except.error e, _ => (evs, Except.error e)
  | _, Except.error e => (evs, Except.error e)

/-! ## The poll loop inside `search`

```
status_run_result = await self._status_run(self.thread_id, runs_result["id"])
while status_run_result["status"] not in ["completed", "failed"]:
    if status_run_result["status"] == "incomplete":
        raise Exception(...)   # carries incomplete_details
    await asyncio.sleep(1)
    status_run_result = await self._status_run(...)
response_result = await self._get_response(self.thread_id)
return response_result["data"]
```

`pollLoop cur rest` is the loop body given the status response `cur` just
fetched and the list `rest` of responses the service will return to later
polls.  When `rest` runs out before a terminal status, the real loop would
poll forever; we record that as `noResponse`. -/

inductive PollOutcome where
  | terminal (r : StatusResp)
  | incompleteErr (details : String)
  | noResponse
deriving Repr, DecidableEq

def pollLoop (tid rid : String) (cur : StatusResp) (rest : List StatusResp) :
    List Event × PollOutcome :=
  if cur.status = "completed" ∨ cur.status = "failed" then
    ([], PollOutcome.terminal cur)
  else if cur.status = "incomplete" then
    ([], PollOutcome.incompleteErr cur.incomplete_details)
  else
    match rest with
    | [] => ([Event.sleep 1, Event.statusRun tid rid], PollOutcome.noResponse)
    | r :: rs =>
        let p := pollLoop tid rid r rs
        (Event.sleep 1 :: Event.statusRun tid rid :: p.1, p.2)

/-- The first status response the loop stops at: the first element whose
status is `completed`, `failed` or `incomplete`. -/
def firstTerminal : List StatusResp → Option StatusResp
  | [] => none
  | r :: rs =>
      if r.status = "completed" ∨ r.status = "failed" ∨ r.status = "incomplete" then
        some r
      else firstTerminal rs

/-- Specification of the poll loop's outcome in terms of the first
terminal-status response of the whole status sequence. -/
def pollSpec (rs : List StatusResp) : PollOutcome :=
  match firstTerminal rs with
  | none => PollOutcome.noResponse
  | some r =>
      if r.status = "completed" ∨ r.status = "failed" then PollOutcome.terminal r
      else PollOutcome.incompleteErr r.incomplete_details

/-! ## `search` -/

/-- Everything the remote service answers during one `search` call:
the two creation results, the run id returned by `POST .../runs`, the
status responses returned to the successive `_status_run` polls (the first
element answers the initial poll), and the `"data"` field of the final
messages listing (kept opaque as a string). -/
structure SearchEnv where
  acquire : AcquireEnv
  run_id : String
  statuses : List StatusResp
  messages : String
deriving Repr

inductive SearchOutcome where
  | ok (data : String)
  | errAcquire (e : String)
  | runIncomplete (details : String)
  | noResponse
deriving Repr, DecidableEq

/-- `GroundingWithBingSearch.search`.  It first calls
`init_agent_threads` (overwriting the stored ids), posts the query,
starts a run, then drives the poll loop; when the loop exits on a
terminal status — `completed` **or** `failed` alike — it fetches the
messages once and returns their `data`; the only raising branch inside
the loop is the `incomplete` status. -/
def search (env : SearchEnv) (st : ClientState) (query : String) :
    ClientState × List Event × SearchOutcome :=
  match init_agent_threads env.acquire st with
  | (evs0, Except.error e) => (st, evs0, SearchOutcome.errAcquire e)
  | (evs0, Except.ok st1) =>
      let tid := st1.thread_id.getD ""
      let aid := st1.agent_id.getD ""
      let evs1 := evs0 ++ [Event.askThread tid query, Event.runs tid aid]
      match env.statuses with
      | [] =>
          (st1, evs1 ++ [Event.statusRun tid env.run_id], SearchOutcome.noResponse)
      | r :: rs =>
          let p := pollLoop tid env.run_id r rs
          let evs2 := evs1 ++ Event.statusRun tid env.run_id :: p.1
          match p.2 with
          | PollOutcome.terminal _ =>
              (st1, evs2 ++ [Event.getResponse tid], SearchOutcome.ok env.messages)
          | PollOutcome.incompleteErr d => (st1, evs2, SearchOutcome.runIncomplete d)
          | PollOutcome.noResponse => (st1, evs2, SearchOutcome.noResponse)

/-! ## Resource release: `delete_agent_threads`

`_delete` raises `Exception(f"Failed to delete: {status}")` whenever the
service answers with a status other than 200, and `delete_agent_threads`
does nothing to catch it: a failing agent deletion aborts the method
before the thread deletion is reached.  Neither `agent_id` nor
`thread_id` is ever cleared. -/

/-- The HTTP status codes the service returns to the two DELETE calls. -/
structure ReleaseEnv where
  deleteAgentStatus : Nat
  deleteThreadStatus : Nat
deriving Repr

/-- `GroundingWithBingSearch._delete`: succeeds on HTTP 200, raises
otherwise. -/
def deleteCall (status : Nat) : Except String Unit :=
  if status ≠ 200 then Except.error ("Failed to delete: " ++ toString status)
  else Except.ok ()

/-- `GroundingWithBingSearch.delete_agent_threads`. -/
def delete_agent_threads (env : ReleaseEnv) (st : ClientState) :
    List Event × Except String ClientState :=
  match st.agent_id with
  | some aid =>
      match deleteCall env.deleteAgentStatus with
      | Except.error e => ([Event.deleteAgent aid], Except.error e)
      | Except.ok _ =>
          match st.thread_id with
          | some tid =>
              match deleteCall env.deleteThreadStatus with
              | Except.error e =>
                  ([Event.deleteAgent aid, Event.deleteThread tid], Except.error e)
              | Except.ok _ =>
                  ([Event.deleteAgent aid, Event.deleteThread tid], Except.ok st)
          | none => ([Event.deleteAgent aid], Except.ok st)
  | none =>
      match st.thread_id with
      | some tid =>
          match deleteCall env.deleteThreadStatus with
          | Except.error e => ([Event.deleteThread tid], Except.error e)
          | Except.ok _ => ([Event.deleteThread tid], Except.ok st)
      | none => ([], Except.ok st)

/-! ## Bulk cleanup: `_delete_all_threads` / `_delete_all_agents`

```
results = await self._get(url)
while results["has_more"]:
    for thread in results["data"]:
        await self._delete_thread(thread["id"])
    if not results["has_more"]:
        break                       # dead: has_more was tested true above
    results = await self._get(url)
```

The environment supplies the successive listing responses; each `_get`
consumes the next one.  Deletions are modelled as succeeding (the flaw
under study appears even with a perfectly behaving service). -/

/-- One listing response: item ids and the `has_more` flag. -/
structure Page where
  data : List String
  has_more : Bool
deriving Repr, DecidableEq

inductive PurgeOutcome where
  | done
  | noResponse
deriving Repr, DecidableEq

/-- The `while results["has_more"]` loop of `_delete_all_threads`, given
the page just fetched and the responses to later fetches.  The inner
`if not results["has_more"]: break` is dead code (the flag was tested
true on loop entry and is not modified in the body) and contributes
nothing. -/
def purgeLoop (pg : Page) (rest : List Page) : List Event × PurgeOutcome :=
  if pg.has_more then
    let dels := pg.data.map Event.deleteThread
    match rest with
    | [] => (dels ++ [Event.listThreads], PurgeOutcome.noResponse)
    | q :: qs =>
        let p := purgeLoop q qs
        (dels ++ Event.listThreads :: p.1, p.2)
  else ([], PurgeOutcome.done)

/-- `GroundingWithBingSearch._delete_all_threads`: the initial listing
fetch followed by the loop.  (`_delete_all_agents` is the same code with
`assistants` in place of `threads`.) -/
def delete_all_threads (pages : List Page) : List Event × PurgeOutcome :=
  match pages with
  | [] => ([Event.listThreads], PurgeOutcome.noResponse)
  | p :: ps =>
      let r := purgeLoop p ps
      (Event.listThreads :: r.1, r.2)

/-! ## `SearchConfiguration` defaults and the `_create_agent` payload

```
class SearchConfiguration(BaseModel):
    connection_id: str = Field(None, ...)
    count: int = Field(7, ...)
    market: str = Field("en-US", ...)
    set_lang: str = Field("en", ...)
    freshness: str = Field((datetime.now() - timedelta(days=3)).strftime("%Y-%m-%d"), ...)
```

The `freshness` default expression runs once, when the class body is
executed at module import; every later instantiation reuses that frozen
string.  We therefore parameterise the defaults by the import date,
measured in days since 1970-01-01, and model
`(datetime.now() - timedelta(days=3)).strftime("%Y-%m-%d")` with exact
civil-calendar arithmetic. -/

/-- Civil date (year, month, day) from a count of days since 1970-01-01,
the standard era-based conversion (valid for all dates of interest). -/
def civilFromDays (days : Nat) : Nat × Nat × Nat :=
  let z := days + 719468
  let era := z / 146097
  let doe := z - era * 146097
  let yoe := (doe - doe / 1460 + doe / 36524 - doe / 146096) / 365
  let y := yoe + era * 400
  let doy := doe - (365 * yoe + yoe / 4 - yoe / 100)
  let mp := (5 * doy + 2) / 153
  let d := doy - (153 * mp + 2) / 5 + 1
  let m := if mp < 10 then mp + 3 else mp - 9
  (if m ≤ 2 then y + 1 else y, m, d)

/-- Zero-pad to two digits, as `%m` / `%d` do. -/
def pad2 (n : Nat) : String :=
  if n < 10 then "0" ++ toString n else toString n

/-- Zero-pad to four digits, as `%Y` does. -/
def pad4 (n : Nat) : String :=
  if n < 10 then "000" ++ toString n
  else if n < 100 then "00" ++ toString n
  else if n < 1000 then "0" ++ toString n
  else toString n

/-- `strftime("%Y-%m-%d")` on a civil date. -/
def formatYMD (ymd : Nat × Nat × Nat) : String :=
  pad4 ymd.1 ++ "-" ++ pad2 ymd.2.1 ++ "-" ++ pad2 ymd.2.2

structure SearchConfiguration where
  connection_id : Option String
  count : Nat
  market : String
  set_lang : String
  freshness : String
deriving Repr, DecidableEq

structure BingGrounding where
  search_configurations : List SearchConfiguration
deriving Repr, DecidableEq

structure Tool where
  type : String
  bing_grounding : BingGrounding
deriving Repr, DecidableEq

structure CreateAgentRequest where
  instructions : String
  name : String
  model : String
  tools : List Tool
deriving Repr, DecidableEq

/-- The `SearchConfiguration()` default instance; `importDays` is the day
(days since 1970-01-01) on which the module was imported, when the
`freshness` default expression was evaluated. -/
def searchConfigurationDefault (importDays : Nat) : SearchConfiguration :=
  { connection_id := none
    count := 7
    market := "en-US"
    set_lang := "en"
    freshness := formatYMD (civilFromDays (importDays - 3)) }

/-- The request body `_create_agent` posts: `CreateAgentRequest()` with
`payload.tools[0].bing_grounding.search_configurations[0].connection_id`
overwritten by the client's `connection_id`. -/
def createAgentPayload (importDays : Nat) (connection_id : String) :
    CreateAgentRequest :=
  { instructions := "You are a helpful agent."
    name := "my-agent"
    model := "gpt-4o"
    tools := [{ type := "bing_grounding"
                bing_grounding := { search_configurations :=
                  [{ searchConfigurationDefault importDays with
                      connection_id := some connection_id }] } }] }

/-- The `freshness` value the specification describes: the date three
days before *now* — the moment the worker-creation request is built —
formatted `YYYY-MM-DD`.  Modelled from the spec to compare against the
source's import-time default. -/
def claimedFreshness (requestDays : Nat) : String :=
  formatYMD (civilFromDays (requestDays - 3))

/-! ## Concrete instances used by witnesses and counterexamples -/

def cState0 : ClientState :=
  { endpoint := "https://e"
    api_version := "v1"
    connection_id := "conn"
    headers := "hdrs"
    agent_id := none
    thread_id := none }

def cState1 : ClientState :=
  { cState0 with agent_id := some "a", thread_id := some "t" }

def cStateOld : ClientState :=
  { cState0 with agent_id := some "oldA", thread_id := some "oldT" }

def cAcqOk : AcquireEnv :=
  { createAgentResult := Except.ok "a", createThreadResult := Except.ok "t" }

def cAcqBad : AcquireEnv :=
  { createAgentResult := Except.error "agent creation failed"
    createThreadResult := Except.ok "t" }

def cEnvFailed : SearchEnv :=
  { acquire := cAcqOk, run_id := "r"
    statuses := [{ status := "failed", incomplete_details := "" }]
    messages := "msgs" }

def cEnvIncomplete : SearchEnv :=
  { acquire := cAcqOk, run_id := "r"
    statuses := [{ status := "queued", incomplete_details := "" },
                 { status := "incomplete", incomplete_details := "reason X" }]
    messages := "msgs" }

def cEnvCompleted : SearchEnv :=
  { acquire := cAcqOk, run_id := "r"
    statuses := [{ status := "queued", incomplete_details := "" },
                 { status := "completed", incomplete_details := "" }]
    messages := "msgs" }

/-! ## Helper lemmas about the poll loop and resource methods -/

/-- The poll loop performs no message fetch: its trace never contains a
`getResponse` event. -/
theorem pollLoop_filter_getResponse (tid rid : String) (cur : StatusResp)
    (rest : List StatusResp) :
    (pollLoop tid rid cur rest).1.filter isGetResponse = [] := by
  induction rest generalizing cur with
  | nil =>
      by_cases h1 : cur.status = "completed" ∨ cur.status = "failed"
      · simp [pollLoop, h1]
      · by_cases h2 : cur.status = "incomplete"
        · simp [pollLoop, h1, h2]
        · simp [pollLoop, h1, h2, isGetResponse]
  | cons r rs ih =>
      by_cases h1 : cur.status = "completed" ∨ cur.status = "failed"
      · simp [pollLoop, h1]
      · by_cases h2 : cur.status = "incomplete"
        · simp [pollLoop, h1, h2]
        · simpa [pollLoop, h1, h2, isGetResponse] using ih r

/-- The poll loop performs no deletions. -/
theorem pollLoop_filter_delete (tid rid : String) (cur : StatusResp)
    (rest : List StatusResp) :
    (pollLoop tid rid cur rest).1.filter isDeleteEvent = [] := by
  induction rest generalizing cur with
  | nil =>
      by_cases h1 : cur.status = "completed" ∨ cur.status = "failed"
      · simp [pollLoop, h1]
      · by_cases h2 : cur.status = "incomplete"
        · simp [pollLoop, h1, h2]
        · simp [pollLoop, h1, h2, isDeleteEvent]
  | cons r rs ih =>
      by_cases h1 : cur.status = "completed" ∨ cur.status = "failed"
      · simp [pollLoop, h1]
      · by_cases h2 : cur.status = "incomplete"
        · simp [pollLoop, h1, h2]
        · simpa [pollLoop, h1, h2, isDeleteEvent] using ih r

/-- The poll loop's outcome is determined by the first terminal-status
response of the status sequence. -/
theorem pollLoop_outcome (tid rid : String) (cur : StatusResp)
    (rest : List StatusResp) :
    (pollLoop tid rid cur rest).2 = pollSpec (cur :: rest) := by
  induction rest generalizing cur with
  | nil =>
      by_cases h1 : cur.status = "completed" ∨ cur.status = "failed"
      · have h3 : cur.status = "completed" ∨ cur.status = "failed" ∨
            cur.status = "incomplete" := h1.imp_right Or.inl
        simp [pollLoop, pollSpec, firstTerminal, h1, h3]
      · by_cases h2 : cur.status = "incomplete"
        · have h3 : cur.status = "completed" ∨ cur.status = "failed" ∨
              cur.status = "incomplete" := Or.inr (Or.inr h2)
          simp [pollLoop, pollSpec, firstTerminal, h1, h2, h3]
        · have h3 : ¬(cur.status = "completed" ∨ cur.status = "failed" ∨
              cur.status = "incomplete") := by
            rintro (h | h | h)
            · exact h1 (Or.inl h)
            · exact h1 (Or.inr h)
            · exact h2 h
          simp [pollLoop, pollSpec, firstTerminal, h1, h2, h3]
  | cons r rs ih =>
      by_cases h1 : cur.status = "completed" ∨ cur.status = "failed"
      · have h3 : cur.status = "completed" ∨ cur.status = "failed" ∨
            cur.status = "incomplete" := h1.imp_right Or.inl
        simp [pollLoop, pollSpec, firstTerminal, h1, h3]
      · by_cases h2 : cur.status = "incomplete"
        · have h3 : cur.status = "completed" ∨ cur.status = "failed" ∨
              cur.status = "incomplete" := Or.inr (Or.inr h2)
          simp [pollLoop, pollSpec, firstTerminal, h1, h2, h3]
        · have h3 : ¬(cur.status = "completed" ∨ cur.status = "failed" ∨
              cur.status = "incomplete") := by
            rintro (h | h | h)
            · exact h1 (Or.inl h)
            · exact h1 (Or.inr h)
            · exact h2 h
          have := ih r
          simp only [pollSpec] at this ⊢
          simp [pollLoop, firstTerminal, h1, h2, h3, this]

/-- `init_agent_threads` when both creations succeed: both creation
requests in the trace, both ids stored, nothing else touched. -/
theorem init_ok (env : AcquireEnv) (st : ClientState) (aid tid : String)
    (hA : env.createAgentResult = Except.ok aid)
    (hT : env.createThreadResult = Except.ok tid) :
    init_agent_threads env st =
      ([Event.createAgent st.connection_id, Event.createThread],
        Except.ok { st with agent_id := some aid, thread_id := some tid }) := by
  simp [init_agent_threads, hA, hT]

/-- Whenever the loop's first terminal status is `completed` or `failed`,
`search` returns the fetched message data with exactly one fetch, placed
after the last poll. -/
theorem search_terminal (env : SearchEnv) (st : ClientState) (query aid tid : String)
    (r : StatusResp)
    (hA : env.acquire.createAgentResult = Except.ok aid)
    (hT : env.acquire.createThreadResult = Except.ok tid)
    (hterm : firstTerminal env.statuses = some r)
    (hcf : r.status = "completed" ∨ r.status = "failed") :
    (search env st query).2.2 = SearchOutcome.ok env.messages ∧
    countEvent isGetResponse (search env st query).2.1 = 1 ∧
    (search env st query).2.1.getLast? = some (Event.getResponse tid) := by
  cases hs : env.statuses with
  | nil => rw [hs] at hterm; simp [firstTerminal] at hterm
  | cons s rs =>
      have hinit := init_ok env.acquire st aid tid hA hT
      have hout : (pollLoop tid env.run_id s rs).2 = PollOutcome.terminal r := by
        rw [pollLoop_outcome, ← hs]
        simp [pollSpec, hterm, hcf]
      have hfil := pollLoop_filter_getResponse tid env.run_id s rs
      refine ⟨?_, ?_, ?_⟩
      · simp [search, hinit, hs, hout]
      · simp [search, hinit, hs, Option.getD_some, hout, countEvent,
          List.filter_append, isGetResponse, hfil]
      · simp only [search, hinit, hs, Option.getD_some, hout]
        exact List.getLast?_concat _

/-- Every `Except.ok` result of `delete_agent_threads` carries the state
unchanged; every other result is an error. -/
theorem release_result (env : ReleaseEnv) (st : ClientState) :
    (delete_agent_threads env st).2 = Except.ok st ∨
    ∃ e, (delete_agent_threads env st).2 = Except.error e := by
  rcases hA : st.agent_id with _ | aid
  · rcases hT : st.thread_id with _ | tid
    · left; simp [delete_agent_threads, hA, hT]
    · by_cases h2 : env.deleteThreadStatus = 200
      · left; simp [delete_agent_threads, hA, hT, deleteCall, h2]
      · right
        exact ⟨"Failed to delete: " ++ toString env.deleteThreadStatus,
          by simp [delete_agent_threads, hA, hT, deleteCall, h2]⟩
  · by_cases h1 : env.deleteAgentStatus = 200
    · rcases hT : st.thread_id with _ | tid
      · left; simp [delete_agent_threads, hA, hT, deleteCall, h1]
      · by_cases h2 : env.deleteThreadStatus = 200
        · left; simp [delete_agent_threads, hA, hT, deleteCall, h1, h2]
        · right
          exact ⟨"Failed to delete: " ++ toString env.deleteThreadStatus,
            by simp [delete_agent_threads, hA, hT, deleteCall, h1, h2]⟩
    · right
      exact ⟨"Failed to delete: " ++ toString env.deleteAgentStatus,
        by simp [delete_agent_threads, hA, deleteCall, h1]⟩

/-! ## Claim theorems -/

/-- Claim C1, counterexample.  The claim states that a status sequence
containing `failed` makes `search` fail with `RunFailed` and perform no
result fetch.  On the environment whose single poll response is `failed`,
`search` instead returns successfully with the fetched message data and
performs exactly one message fetch: the loop condition
`not in ["completed", "failed"]` exits on `failed` and nothing
distinguishes it from `completed` afterwards. -/
theorem failed_status_counterexample :
    (search cEnvFailed cState0 "q").2.2 = SearchOutcome.ok "msgs" ∧
    countEvent isGetResponse (search cEnvFailed cState0 "q").2.1 = 1 :=
  ⟨rfl, rfl⟩

/-- Claim C1, amended.  For every status sequence whose first terminal
status is `failed`, the poll loop stops there, but `search` does not
fail: it performs exactly one result fetch, after the last poll, and
returns the fetched message data — exactly as in the `completed` case. -/
theorem failed_status_fetches_and_returns (env : SearchEnv) (st : ClientState)
    (query aid tid : String) (r : StatusResp)
    (hA : env.acquire.createAgentResult = Except.ok aid)
    (hT : env.acquire.createThreadResult = Except.ok tid)
    (hterm : firstTerminal env.statuses = some r)
    (hf : r.status = "failed") :
    (search env st query).2.2 = SearchOutcome.ok env.messages ∧
    countEvent isGetResponse (search env st query).2.1 = 1 ∧
    (search env st query).2.1.getLast? = some (Event.getResponse tid) :=
  search_terminal env st query aid tid r hA hT hterm (Or.inr hf)

/-- Claim C1, witness for the amended theorem at the concrete environment
whose poll responses are `[failed]`. -/
theorem failed_status_fetches_and_returns_witness :
    (search cEnvFailed cState0 "q").2.2 = SearchOutcome.ok "msgs" ∧
    countEvent isGetResponse (search cEnvFailed cState0 "q").2.1 = 1 ∧
    (search cEnvFailed cState0 "q").2.1.getLast? = some (Event.getResponse "t") :=
  failed_status_fetches_and_returns cEnvFailed cState0 "q" "a" "t"
    { status := "failed", incomplete_details := "" } rfl rfl rfl rfl

/-- Claim C2.  `purge_all` is claimed to delete every item on every
fetched page, terminating exactly when `has_more` is false.  Evaluating
`_delete_all_threads` on the failing input — a single listing response
with item `t1` and `has_more = false` — shows the code fetches the page,
performs **zero** deletions, and terminates: items of any page fetched
with `has_more = false` (here even the first) are never deleted, because
the `while results["has_more"]` test guards the deletion of the page just
fetched. -/
theorem purge_final_page_left_undeleted :
    delete_all_threads [{ data := ["t1"], has_more := false }] =
      ([Event.listThreads], PurgeOutcome.done) ∧
    countEvent isDeleteThreadEvent
      (delete_all_threads [{ data := ["t1"], has_more := false }]).1 = 0 :=
  ⟨rfl, rfl⟩

/-- Claim C3.  For every status sequence whose first terminal status is
`incomplete`, `search` raises carrying verbatim the
`incomplete_details` payload of the poll response that reported
`incomplete`, and performs zero message-fetch calls. -/
theorem incomplete_raises_with_details (env : SearchEnv) (st : ClientState)
    (query aid tid : String) (r : StatusResp)
    (hA : env.acquire.createAgentResult = Except.ok aid)
    (hT : env.acquire.createThreadResult = Except.ok tid)
    (hterm : firstTerminal env.statuses = some r)
    (hi : r.status = "incomplete") :
    (search env st query).2.2 = SearchOutcome.runIncomplete r.incomplete_details ∧
    countEvent isGetResponse (search env st query).2.1 = 0 := by
  cases hs : env.statuses with
  | nil => rw [hs] at hterm; simp [firstTerminal] at hterm
  | cons s rs =>
      have hinit := init_ok env.acquire st aid tid hA hT
      have hout : (pollLoop tid env.run_id s rs).2 =
          PollOutcome.incompleteErr r.incomplete_details := by
        rw [pollLoop_outcome, ← hs]
        simp [pollSpec, hterm, hi]
      have hfil := pollLoop_filter_getResponse tid env.run_id s rs
      refine ⟨?_, ?_⟩
      · simp [search, hinit, hs, hout]
      · simp [search, hinit, hs, Option.getD_some, hout, countEvent,
          List.filter_append, isGetResponse, hfil]

/-- Claim C3, witness: scenario B — statuses `[queued, incomplete]` with
details `reason X` yields a failure carrying `reason X` and zero
message-fetch calls. -/
theorem incomplete_raises_with_details_witness :
    (search cEnvIncomplete cState0 "q").2.2 = SearchOutcome.runIncomplete "reason X" ∧
    countEvent isGetResponse (search cEnvIncomplete cState0 "q").2.1 = 0 :=
  incomplete_raises_with_details cEnvIncomplete cState0 "q" "a" "t"
    { status := "incomplete", incomplete_details := "reason X" } rfl rfl rfl rfl

/-- Claim C4, counterexample.  With both identifiers held and the agent
deletion answered 404, `delete_agent_threads` raises immediately: the
trace holds only the agent deletion and **no** thread deletion is
attempted, contradicting the claim that the session deletion is still
attempted after a worker-deletion failure. -/
theorem release_agent_failure_counterexample :
    delete_agent_threads { deleteAgentStatus := 404, deleteThreadStatus := 200 } cState1 =
      ([Event.deleteAgent "a"], Except.error "Failed to delete: 404") ∧
    countEvent isDeleteThreadEvent
      (delete_agent_threads { deleteAgentStatus := 404, deleteThreadStatus := 200 }
        cState1).1 = 0 :=
  ⟨rfl, rfl⟩

/-- Claim C4, amended.  When both identifiers are held and the worker
deletion fails (non-200), `delete_agent_threads` propagates the
exception at once: the failure is reported, but the session deletion is
**not** attempted. -/
theorem release_agent_failure_aborts (env : ReleaseEnv) (st : ClientState)
    (aid tid : String)
    (ha : st.agent_id = some aid) ( _ht : st.thread_id = some tid)
    (hfail : env.deleteAgentStatus ≠ 200) :
    delete_agent_threads env st =
      ([Event.deleteAgent aid],
        Except.error ("Failed to delete: " ++ toString env.deleteAgentStatus)) ∧
    countEvent isDeleteThreadEvent (delete_agent_threads env st).1 = 0 := by
  refine ⟨?_, ?_⟩ <;>
    simp [delete_agent_threads, ha, deleteCall, hfail, countEvent, isDeleteThreadEvent]

/-- Claim C4, witness for the amended theorem: ids `a`/`t` held, agent
deletion answered 404. -/
theorem release_agent_failure_aborts_witness :
    delete_agent_threads { deleteAgentStatus := 404, deleteThreadStatus := 200 } cState1 =
      ([Event.deleteAgent "a"], Except.error "Failed to delete: 404") ∧
    countEvent isDeleteThreadEvent
      (delete_agent_threads { deleteAgentStatus := 404, deleteThreadStatus := 200 }
        cState1).1 = 0 :=
  release_agent_failure_aborts { deleteAgentStatus := 404, deleteThreadStatus := 200 }
    cState1 "a" "t" rfl rfl (by decide)

/-- Claim C5.  For every status sequence whose first terminal status is
`completed` (no earlier `incomplete` or `failed` observed), `search`
returns the fetched result set, performs exactly one result fetch, and
that fetch is the last event of the trace — after the last poll. -/
theorem completed_fetches_once_after_polls (env : SearchEnv) (st : ClientState)
    (query aid tid : String) (r : StatusResp)
    (hA : env.acquire.createAgentResult = Except.ok aid)
    (hT : env.acquire.createThreadResult = Except.ok tid)
    (hterm : firstTerminal env.statuses = some r)
    (hc : r.status = "completed") :
    (search env st query).2.2 = SearchOutcome.ok env.messages ∧
    countEvent isGetResponse (search env st query).2.1 = 1 ∧
    (search env st query).2.1.getLast? = some (Event.getResponse tid) :=
  search_terminal env st query aid tid r hA hT hterm (Or.inl hc)

/-- Claim C5, witness at statuses `[queued, completed]`. -/
theorem completed_fetches_once_after_polls_witness :
    (search cEnvCompleted cState0 "q").2.2 = SearchOutcome.ok "msgs" ∧
    countEvent isGetResponse (search cEnvCompleted cState0 "q").2.1 = 1 ∧
    (search cEnvCompleted cState0 "q").2.1.getLast? = some (Event.getResponse "t") :=
  completed_fetches_once_after_polls cEnvCompleted cState0 "q" "a" "t"
    { status := "completed", incomplete_details := "" } rfl rfl rfl rfl

/-- Claim C6.  Scenario A: on the status sequence
`[queued, in_progress, completed]`, `search` produces exactly this
trace — 3 poll calls (1 initial + 2 re-polls, each re-poll preceded by a
1-second sleep) and exactly one message-fetch call, which comes last. -/
theorem scenario_a_three_polls_one_fetch (st : ClientState)
    (q aid tid rid msgs : String) :
    search { acquire := { createAgentResult := Except.ok aid
                          createThreadResult := Except.ok tid }
             run_id := rid
             statuses := [{ status := "queued", incomplete_details := "" },
                          { status := "in_progress", incomplete_details := "" },
                          { status := "completed", incomplete_details := "" }]
             messages := msgs } st q =
      ({ st with agent_id := some aid, thread_id := some tid },
       [Event.createAgent st.connection_id, Event.createThread,
        Event.askThread tid q, Event.runs tid aid,
        Event.statusRun tid rid, Event.sleep 1, Event.statusRun tid rid,
        Event.sleep 1, Event.statusRun tid rid, Event.getResponse tid],
       SearchOutcome.ok msgs) ∧
    countEvent isStatusRun
      (search { acquire := { createAgentResult := Except.ok aid
                             createThreadResult := Except.ok tid }
                run_id := rid
                statuses := [{ status := "queued", incomplete_details := "" },
                             { status := "in_progress", incomplete_details := "" },
                             { status := "completed", incomplete_details := "" }]
                messages := msgs } st q).2.1 = 3 ∧
    countEvent isGetResponse
      (search { acquire := { createAgentResult := Except.ok aid
                             createThreadResult := Except.ok tid }
                run_id := rid
                statuses := [{ status := "queued", incomplete_details := "" },
                             { status := "in_progress", incomplete_details := "" },
                             { status := "completed", incomplete_details := "" }]
                messages := msgs } st q).2.1 = 1 :=
  ⟨rfl, rfl, rfl⟩

/-- Claim C7.  `init_agent_threads` issues both creation requests
together; when worker creation fails and session creation succeeds, it
fails (the exception propagates, modelling `AcquisitionFailed`) and its
trace contains no deletion: the successfully created session is not
rolled back by the call itself. -/
theorem acquire_failure_no_rollback (env : AcquireEnv) (st : ClientState)
    (e tid : String)
    (hA : env.createAgentResult = Except.error e)
    (hT : env.createThreadResult = Except.ok tid) :
    init_agent_threads env st =
      ([Event.createAgent st.connection_id, Event.createThread], Except.error e) ∧
    countEvent isDeleteEvent (init_agent_threads env st).1 = 0 := by
  refine ⟨?_, ?_⟩ <;> simp [init_agent_threads, hA, hT, countEvent, isDeleteEvent]

/-- Claim C7, witness: scenario C with a failing agent creation and a
successful thread creation. -/
theorem acquire_failure_no_rollback_witness :
    init_agent_threads cAcqBad cState0 =
      ([Event.createAgent "conn", Event.createThread],
        Except.error "agent creation failed") ∧
    countEvent isDeleteEvent (init_agent_threads cAcqBad cState0).1 = 0 :=
  acquire_failure_no_rollback cAcqBad cState0 "agent creation failed" "t" rfl rfl

/-- Claim C8, counterexample.  After one acquire, a first successful
release leaves the identifiers stored (the state returned is unchanged),
so a second release re-issues the agent deletion; when the service
answers 404 for the already-deleted resource, the second call raises —
it is neither a no-op nor a non-throwing re-attempt. -/
theorem double_release_counterexample :
    (init_agent_threads cAcqOk cState0).2 = Except.ok cState1 ∧
    delete_agent_threads { deleteAgentStatus := 200, deleteThreadStatus := 200 } cState1 =
      ([Event.deleteAgent "a", Event.deleteThread "t"], Except.ok cState1) ∧
    delete_agent_threads { deleteAgentStatus := 404, deleteThreadStatus := 404 } cState1 =
      ([Event.deleteAgent "a"], Except.error "Failed to delete: 404") :=
  ⟨rfl, rfl, rfl⟩

/-- Claim C8, amended.  `delete_agent_threads` never clears the stored
identifiers: a successful call returns the state unchanged, so a second
call re-issues the same deletion requests; it raises whenever the
service answers the re-issued agent deletion with a non-200 status (as
for an already-deleted resource); it is a genuine no-op (no requests, no
raise) only when both identifiers are absent. -/
theorem release_keeps_ids_noop_when_absent (env1 env2 : ReleaseEnv)
    (st st1 : ClientState) (aid : String)
    (h : (delete_agent_threads env1 st).2 = Except.ok st1) :
    st1 = st ∧
    (st.agent_id = none → st.thread_id = none →
      delete_agent_threads env2 st1 = ([], Except.ok st1)) ∧
    (st.agent_id = some aid → env2.deleteAgentStatus ≠ 200 →
      (delete_agent_threads env2 st1).2 =
        Except.error ("Failed to delete: " ++ toString env2.deleteAgentStatus)) := by
  have hst : st1 = st := by
    rcases release_result env1 st with hok | ⟨e, herr⟩
    · rw [hok] at h
      injection h with h'
      exact h'.symm
    · rw [herr] at h
      simp at h
  subst hst
  refine ⟨rfl, ?_, ?_⟩
  · intro ha ht
    simp [delete_agent_threads, ha, ht]
  · intro ha hf
    simp [delete_agent_threads, ha, deleteCall, hf]

/-- Claim C8, witness: first release with both deletions answered 200,
second release with both answered 404. -/
theorem release_keeps_ids_noop_when_absent_witness :
    cState1 = cState1 ∧
    (cState1.agent_id = none → cState1.thread_id = none →
      delete_agent_threads { deleteAgentStatus := 404, deleteThreadStatus := 404 }
          cState1 = ([], Except.ok cState1)) ∧
    (cState1.agent_id = some "a" → (404 : Nat) ≠ 200 →
      (delete_agent_threads { deleteAgentStatus := 404, deleteThreadStatus := 404 }
          cState1).2 = Except.error "Failed to delete: 404") :=
  release_keeps_ids_noop_when_absent
    { deleteAgentStatus := 200, deleteThreadStatus := 200 }
    { deleteAgentStatus := 404, deleteThreadStatus := 404 } cState1 cState1 "a" rfl

/-- Claim C9, counterexample.  The claim reads `freshness` as the date 3
days before *now*, the time the worker-creation request is built.  The
default is in fact evaluated once, at module import: a request built on
day 20001 (1970-epoch) by a module imported on day 20000 carries the
import-time value `2024-10-01`, not the claimed `2024-10-02`. -/
theorem freshness_counterexample :
    ((createAgentPayload 20000 "conn").tools.map
        (fun t => t.bing_grounding.search_configurations.map
          (fun c => c.freshness))) ≠ [[claimedFreshness 20001]] := by
  decide

/-- Claim C9, amended.  Every worker-creation request carries the
caller's `connection_id` and the defaults `count = 7`,
`market = "en-US"`, `set_lang = "en"`, and `freshness` equal to the date
3 days before the module-import time (when the pydantic default was
evaluated), formatted `YYYY-MM-DD` — which coincides with "3 days before
now" only for requests built on the import day. -/
theorem create_agent_payload_defaults (importDays : Nat) (connId : String) :
    (createAgentPayload importDays connId).tools.map
        (fun t => t.bing_grounding.search_configurations) =
      [[{ connection_id := some connId
          count := 7
          market := "en-US"
          set_lang := "en"
          freshness := formatYMD (civilFromDays (importDays - 3)) }]] := rfl

/-- Claim C10.  Every successful-acquisition `search` call overwrites the
stored `agent_id` / `thread_id` with the freshly created identifiers
while leaving `endpoint`, `api_version`, `headers` and `connection_id`
untouched (the record-update equality pins every other field to its old
value), and its trace contains no deletion: identifiers from a previous
unreleased call are discarded without being deleted. -/
theorem search_overwrites_ids_frame (env : SearchEnv) (st : ClientState)
    (query aid tid : String)
    (hA : env.acquire.createAgentResult = Except.ok aid)
    (hT : env.acquire.createThreadResult = Except.ok tid) :
    (search env st query).1 = { st with agent_id := some aid, thread_id := some tid } ∧
    countEvent isDeleteEvent (search env st query).2.1 = 0 := by
  have hinit := init_ok env.acquire st aid tid hA hT
  cases hs : env.statuses with
  | nil =>
      refine ⟨?_, ?_⟩ <;> simp [search, hinit, hs, countEvent, isDeleteEvent]
  | cons s rs =>
      have hdel := pollLoop_filter_delete tid env.run_id s rs
      cases hout : (pollLoop tid env.run_id s rs).2 with
      | terminal r =>
          refine ⟨?_, ?_⟩ <;>
            simp [search, hinit, hs, Option.getD_some, hout, countEvent,
              List.filter_append, isDeleteEvent, hdel]
      | incompleteErr d =>
          refine ⟨?_, ?_⟩ <;>
            simp [search, hinit, hs, Option.getD_some, hout, countEvent,
              List.filter_append, isDeleteEvent, hdel]
      | noResponse =>
          refine ⟨?_, ?_⟩ <;>
            simp [search, hinit, hs, Option.getD_some, hout, countEvent,
              List.filter_append, isDeleteEvent, hdel]

/-- Claim C10, witness: a client with previously stored identifiers is
overwritten by the fresh ones and no deletion is issued. -/
theorem search_overwrites_ids_frame_witness :
    (search cEnvCompleted cStateOld "q").1 = cState1 ∧
    countEvent isDeleteEvent (search cEnvCompleted cStateOld "q").2.1 = 0 :=
  search_overwrites_ids_frame cEnvCompleted cStateOld "q" "a" "t" rfl rfl

end BingSearch
